import Mathlib

/-!
Verification of the `common` S3 utility layer (`src/common/s3util.h`).

Shallow embedding notes.  The repository ships only the header; method
bodies living in the corresponding implementation file are modelled from
the specification (their doc comments start with `Modelled from the spec:`),
while everything visible in the header — field widths, the inline
`DirectIOFileSink` methods, the `S3Util` constructor and destructor bodies,
and the documented per-key error convention of `getObjects` — is embedded
directly from the source.  Machine integers (`uint32_t`) are embedded as
`Nat` with explicit reduction modulo `2 ^ 32` where the source arithmetic
wraps.  File-system effects are made explicit state: the writer state
carries the bytes physically flushed to disk and a count of flush syscalls.
-/

namespace common

/-- Embedded from src/common/s3util.h lines 56-72: a generic body/error
pair returned by every facade operation. -/
structure S3UtilResponse (T : Type) where
  body_ : T
  error_ : String
deriving DecidableEq

/-- Embedded from src/common/s3util.h lines 62-64. -/
def S3UtilResponse.Body {T : Type} (r : S3UtilResponse T) : T := r.body_

/-- Embedded from src/common/s3util.h lines 66-68. -/
def S3UtilResponse.Error {T : Type} (r : S3UtilResponse T) : String := r.error_

abbrev GetObjectResponse := S3UtilResponse Bool

abbrev ListObjectsResponse := S3UtilResponse (List String)

abbrev GetObjectsResponse := S3UtilResponse (List GetObjectResponse)

/-- Embedded from src/common/s3util.h lines 77-98: the state of a
`DirectIOWritableFile`.  `file_size_`, `offset_` and `buffer_size_` are
`uint32_t` in the source; they are embedded as `Nat` and the source's
wrapping addition on `file_size_` is made explicit in `write`.  The file
descriptor is replaced by explicit file state: `disk` records the bytes
physically written by flush syscalls and `flushCount` counts those
syscalls; `buffer_` holds the `offset_` bytes currently buffered. -/
structure DirectIOWritableFile where
  file_size_ : Nat
  offset_ : Nat
  buffer_size_ : Nat
  buffer_ : List Char
  disk : List Char
  flushCount : Nat
deriving DecidableEq

/-- Modelled from the spec: the constructor `DirectIOWritableFile(file_path)`
(declared at s3util.h line 79, body not under src).  Spec 4.1 step 1: open
creates/truncates the target and allocates a page-aligned buffer of fixed
capacity, so the fresh state has logical size 0, empty buffer, and nothing
yet on disk. -/
def DirectIOWritableFile.mkFile (buffer_size : Nat) : DirectIOWritableFile :=
  { file_size_ := 0, offset_ := 0, buffer_size_ := buffer_size,
    buffer_ := [], disk := [], flushCount := 0 }

/-- Modelled from the spec: the aligned flush step of `write` (spec 4.1
step 2): the full buffer is written to disk by one unbuffered syscall and
the buffer offset is reset to 0.  The modelled syscall always succeeds. -/
def DirectIOWritableFile.flushBuffer (f : DirectIOWritableFile) : DirectIOWritableFile :=
  { f with
    disk := f.disk ++ f.buffer_, buffer_ := [], offset_ := 0,
    flushCount := f.flushCount + 1 }

/-- Modelled from the spec: the copy loop of `write` (spec 4.1 step 2).
Each round copies `min room remaining` input bytes into the buffer at
`offset_`; when the buffer fills it is flushed and copying continues into
the now-empty buffer.  The loop runs until the input is consumed; the
fuel argument (instantiated with the input length by `write`) makes the
recursion structural and is never exhausted when `buffer_size_` is
positive. -/
def DirectIOWritableFile.writeAux :
    Nat → DirectIOWritableFile → List Char → DirectIOWritableFile
  | _, f, [] => f
  | 0, f, _ :: _ => f
  | fuel + 1, f, c :: cs =>
    let data := c :: cs
    let tk := min (f.buffer_size_ - f.offset_) data.length
    let f1 := { f with buffer_ := f.buffer_ ++ data.take tk, offset_ := f.offset_ + tk }
    let f2 := if f1.buffer_size_ ≤ f1.offset_ then f1.flushBuffer else f1
    DirectIOWritableFile.writeAux fuel f2 (data.drop tk)

/-- Modelled from the spec: `DirectIOWritableFile::write(s, n)` (declared
at s3util.h line 86, body not under src).  Spec 4.1 steps 2-3: the input is
copied through the buffer, flushing full buffers along the way, then
`file_size_` is incremented by exactly the number of bytes accepted —
independent of flush boundaries — and `n` is returned.  `file_size_` is
`uint32_t` (s3util.h line 91), so the increment wraps modulo `2 ^ 32`. -/
def DirectIOWritableFile.write (f : DirectIOWritableFile) (data : List Char) :
    DirectIOWritableFile × Nat :=
  let f1 := DirectIOWritableFile.writeAux data.length f data
  ({ f1 with file_size_ := (f1.file_size_ + data.length) % 2 ^ 32 }, data.length)

/-- Sequencing of `write` calls: fold the writer state through a list of
inputs, discarding the returned byte counts. -/
def DirectIOWritableFile.writeAll (f : DirectIOWritableFile)
    (datas : List (List Char)) : DirectIOWritableFile :=
  datas.foldl (fun g d => (g.write d).1) f

/-- POSIX `ftruncate` on file content: cut to `n` bytes, zero-extending
when the content is shorter. -/
def truncateTo (content : List Char) (n : Nat) : List Char :=
  content.take n ++ List.replicate (n - content.length) (Char.ofNat 0)

/-- Modelled from the spec: the destructor `~DirectIOWritableFile`
(declared at s3util.h line 80, body not under src).  Spec 4.1 step 4 and
design note 9: if `offset_ > 0` the partial tail is padded to the next
block boundary and flushed with one aligned write, and the file is then —
mandatorily after that flush — truncated to the logical size.  Returns the
final on-disk content of the file. -/
def DirectIOWritableFile.close (f : DirectIOWritableFile) (page_size : Nat) : List Char :=
  let pad := (page_size - f.offset_ % page_size) % page_size
  let disk1 := if 0 < f.offset_ then
      f.disk ++ f.buffer_ ++ List.replicate pad (Char.ofNat 0)
    else f.disk
  truncateTo disk1 f.file_size_

/-- Embedded from src/common/s3util.h lines 104-128: the boost sink
adapter.  The source holds the writable file behind a `shared_ptr` so the
sink is copyable; in the state-passing embedding the sink state is the
underlying writer state. -/
structure DirectIOFileSink where
  writable_file_ : DirectIOWritableFile
deriving DecidableEq

/-- Embedded from src/common/s3util.h lines 113-115: `write` delegates to
the writable file's `write` and returns its result. -/
def DirectIOFileSink.write (sink : DirectIOFileSink) (data : List Char) :
    DirectIOFileSink × Nat :=
  let r := sink.writable_file_.write data
  ({ writable_file_ := r.1 }, r.2)

/-- Embedded from src/common/s3util.h lines 117-121: `read` is not
implemented and returns -1.  The body touches neither the destination
buffer nor the writable file, so the embedding returns both unchanged
alongside the sentinel. -/
def DirectIOFileSink.read (sink : DirectIOFileSink) (s : List Char) (n : Int) :
    List Char × DirectIOFileSink × Int :=
  (s, sink, -1)

/-- Modelled from the spec: the loop body of `S3Util::getObjects`
(s3util.h lines 186-194; body not under src).  The header comment (lines
186-190) fixes the per-key convention: if the download of a key is
successful the record's error message is the object key itself (with body
`true`); otherwise the record is the failing `getObject` response. -/
def perKeyRecord (getObjectFor : String → GetObjectResponse) (key : String) :
    GetObjectResponse :=
  if (getObjectFor key).error_ = "" then { body_ := true, error_ := key }
  else getObjectFor key

/-- Modelled from the spec: `S3Util::getObjects` (s3util.h lines 186-194;
body not under src; spec 4.3).  The two external effects — listing the
keys under the requested key prefix, and downloading one key to its local
path — are passed in as the listing response `listObjectsResult` and the
per-key download function `getObjectFor` (which absorbs the local-path
derivation and the direct-io flag).  When the listing failed, the outer
response carries the listing error and an empty sequence; otherwise every
listed key is downloaded independently in listing order, each producing
one record via `perKeyRecord`, and the outer error is empty. -/
def S3Util.getObjects (listObjectsResult : ListObjectsResponse)
    (getObjectFor : String → GetObjectResponse) : GetObjectsResponse :=
  if listObjectsResult.error_ = "" then
    { body_ := listObjectsResult.body_.map (perKeyRecord getObjectFor), error_ := "" }
  else
    { body_ := [], error_ := listObjectsResult.error_ }

/-- Concrete per-key download behaviour used to exhibit a batch in which
the download of key "b" fails and every other key succeeds. -/
def downloadFailingOnB : String → GetObjectResponse := fun key =>
  if key = "b" then { body_ := false, error_ := "NoSuchKey" }
  else { body_ := true, error_ := "" }

/-- Scans for the first occurrence of the separator "://" and returns
what follows it (the empty list when there is none). -/
def dropThroughSep : List Char → List Char
  | [] => []
  | c :: rest =>
    if c = ':' ∧ rest.take 2 = ['/', '/'] then rest.drop 2
    else dropThroughSep rest

/-- Splits at the first '/' into the segment before it and everything
after it (the whole input and an empty remainder when there is none). -/
def splitAtSlash : List Char → List Char × List Char
  | [] => ([], [])
  | c :: rest =>
    if c = '/' then ([], rest)
    else
      let r := splitAtSlash rest
      (c :: r.1, r.2)

/-- Modelled from the spec: `S3Util::parseFullS3Path` (s3util.h lines
199-202; body not under src; spec 6).  The input has the shape
`scheme://bucket/key...`; the bucket is the first path segment after the
`://` separator and the key is everything after the following `/`. -/
def S3Util.parseFullS3Path (s3_path : String) : String × String :=
  let rest := dropThroughSep s3_path.data
  let br := splitAtSlash rest
  (String.mk br.1, String.mk br.2)

/-- Embedded from src/common/s3util.h: the parts of the AWS
`ClientConfiguration` read by the `S3Util` constructor — the scheme
(already rendered to its string form, as by `SchemeMapper::ToString`),
the region and the endpoint override. -/
structure ClientConfiguration where
  scheme : String
  region : String
  endpointOverride : String
deriving DecidableEq

/-- Embedded from src/common/s3util.h lines 211-218: the facade state
observable in the embedding — the bucket and the URI assembled by the
constructor.  The external S3 client handle and the SDK options carry no
observable pure state. -/
structure S3Util where
  bucket_ : String
  uri_ : String
deriving DecidableEq

/-- Embedded from src/common/s3util.h lines 157-171: the constructor
stores the bucket and assembles `uri_` as `scheme` ++ "://" ++ either the
region's endpoint (the external `S3Endpoint::ForRegion` mapping, passed in
as `forRegion`) when the endpoint override is empty, or the override
itself. -/
def S3Util.construct (forRegion : String → String) (bucket : String)
    (client_config : ClientConfiguration) : S3Util :=
  { bucket_ := bucket,
    uri_ := client_config.scheme ++ "://" ++
      (if client_config.endpointOverride = "" then forRegion client_config.region
       else client_config.endpointOverride) }

/-- Modelled from the spec: `S3Util::BuildS3Util` (s3util.h lines 204-208;
body not under src; spec 4.3).  The factory returns a null pointer —
`none` — when the bucket is empty (invalid configuration) and otherwise
performs SDK initialization and constructs the facade from the client
configuration it assembles; the assembled configuration and the external
endpoint mapping are passed in as parameters.  The rate-limit and timeout
arguments only tune the external client and do not affect the observable
facade state. -/
def S3Util.BuildS3Util (forRegion : String → String)
    (client_config : ClientConfiguration) (read_ratelimit_mb : Nat)
    (bucket : String) (connect_timeout_ms : Nat) (request_timeout_ms : Nat) :
    Option S3Util :=
  if bucket = "" then none
  else some (S3Util.construct forRegion bucket client_config)

/-- The process-wide SDK lifecycle calls (`Aws::InitAPI` /
`Aws::ShutdownAPI`). -/
inductive SDKCall where
  | initAPI : SDKCall
  | shutdownAPI : SDKCall
deriving DecidableEq

/-- Embedded from src/common/s3util.h lines 157-171: the sequence of
process-wide SDK lifecycle calls performed by the `S3Util` constructor
body.  The body only assembles `uri_`; it performs no SDK lifecycle call —
the header comment (lines 155-156) instructs direct callers to run
`Aws::InitAPI(options)` themselves before the constructor. -/
def S3Util.constructorSDKCalls : List SDKCall := []

/-- Embedded from src/common/s3util.h lines 173-175: the destructor calls
`Aws::ShutdownAPI(options_)`. -/
def S3Util.destructorSDKCalls : List SDKCall := [SDKCall.shutdownAPI]

/-- Modelled from the spec: the sequence of process-wide SDK lifecycle
calls performed by `S3Util::BuildS3Util` (body not under src; spec 4.3 and
9: the factory performs SDK initialization as a side effect before
constructing the facade, and returns null without doing anything when the
bucket is empty). -/
def S3Util.buildSDKCalls (bucket : String) : List SDKCall :=
  if bucket = "" then [] else [SDKCall.initAPI]

/-! Helper lemmas about the direct I/O writer. -/

theorem writeAux_file_size (fuel : Nat) : ∀ (f : DirectIOWritableFile) (data : List Char),
    (DirectIOWritableFile.writeAux fuel f data).file_size_ = f.file_size_ := by
  induction fuel with
  | zero => intro f data; cases data <;> rfl
  | succ m ih =>
    intro f data
    cases data with
    | nil => rfl
    | cons c cs =>
      rw [DirectIOWritableFile.writeAux, ih]
      dsimp only
      split <;> simp [DirectIOWritableFile.flushBuffer]

theorem write_file_size (f : DirectIOWritableFile) (data : List Char) :
    (f.write data).1.file_size_ = (f.file_size_ + data.length) % 2 ^ 32 := by
  simp [DirectIOWritableFile.write, writeAux_file_size]

theorem write_length_result (f : DirectIOWritableFile) (data : List Char) :
    (f.write data).2 = data.length := rfl

theorem writeAll_file_size (datas : List (List Char)) :
    ∀ (f : DirectIOWritableFile), f.file_size_ < 2 ^ 32 →
    (f.writeAll datas).file_size_ =
      (f.file_size_ + (datas.map List.length).sum) % 2 ^ 32 := by
  induction datas with
  | nil =>
    intro f h
    have hid : f.writeAll [] = f := rfl
    rw [hid, List.map_nil, List.sum_nil, Nat.add_zero, Nat.mod_eq_of_lt h]
  | cons d ds ih =>
    intro f h
    have h1 : ((f.write d).1).file_size_ < 2 ^ 32 := by
      rw [write_file_size]
      exact Nat.mod_lt _ (by norm_num)
    have hstep : f.writeAll (d :: ds) = ((f.write d).1).writeAll ds := rfl
    rw [hstep, ih _ h1, write_file_size, Nat.mod_add_mod, Nat.add_assoc]
    simp

theorem truncateTo_length (content : List Char) (n : Nat) :
    (truncateTo content n).length = n := by
  simp [truncateTo]
  omega

theorem close_length (f : DirectIOWritableFile) (page_size : Nat) :
    (f.close page_size).length = f.file_size_ := by
  simp [DirectIOWritableFile.close, truncateTo_length]

theorem mkFile_writeAll_file_size (cap : Nat) (datas : List (List Char)) :
    ((DirectIOWritableFile.mkFile cap).writeAll datas).file_size_ =
      (datas.map List.length).sum % 2 ^ 32 := by
  have h := writeAll_file_size datas (DirectIOWritableFile.mkFile cap) (by
    simp [DirectIOWritableFile.mkFile])
  simpa [DirectIOWritableFile.mkFile] using h

theorem big_input_length_sum :
    ([List.replicate (2 ^ 32) 'c'].map List.length).sum = 2 ^ 32 := by
  rw [List.map_cons, List.map_nil, List.length_replicate, List.sum_cons,
    List.sum_nil, Nat.add_zero]

/-! Claim theorems. -/

/-- Claim C1, amended: for every sequence of `write` calls whose lengths
sum to N bytes with N < 2 ^ 32, and any buffer capacity that is a positive
multiple of the page size, the logical length of the file after the writer
is closed equals exactly N, independent of where flush boundaries fall.
(The bound is forced by the `uint32_t` width of `file_size_`.) -/
theorem write_sequence_logical_length (page_size k : Nat)
    (datas : List (List Char)) (N : Nat)
    (hps : 0 < page_size) (hk : 0 < k)
    (hsum : (datas.map List.length).sum = N) (hN : N < 2 ^ 32) :
    (((DirectIOWritableFile.mkFile (k * page_size)).writeAll datas).close
      page_size).length = N := by
  rw [close_length, mkFile_writeAll_file_size, hsum, Nat.mod_eq_of_lt hN]

/-- Claim C1, witness: two writes of lengths 2 and 1 into a writer with a
one-page buffer of page size 4096 leave a closed file of logical length 3. -/
theorem write_sequence_logical_length_witness :
    0 < 4096 ∧ 0 < 1 ∧
    (((DirectIOWritableFile.mkFile (1 * 4096)).writeAll
      [['a', 'b'], ['c']]).close 4096).length = 3 :=
  ⟨by norm_num, by norm_num,
   write_sequence_logical_length 4096 1 [['a', 'b'], ['c']] 3
     (by norm_num) (by norm_num) (by decide) (by norm_num)⟩

/-- Claim C1, counterexample: a single `write` of 2 ^ 32 bytes into a
writer with a one-page buffer of page size 4096 (a positive multiple of
the page size) sums to N = 2 ^ 32, yet the logical length of the file
after close is 0, not N: the `uint32_t` logical size wrapped. -/
theorem write_sequence_logical_length_cex :
    ([List.replicate (2 ^ 32) 'c'].map List.length).sum = 2 ^ 32 ∧
    (((DirectIOWritableFile.mkFile (1 * 4096)).writeAll
      [List.replicate (2 ^ 32) 'c']).close 4096).length = 0 ∧
    (0 : Nat) ≠ 2 ^ 32 := by
  refine ⟨big_input_length_sum, ?_, by norm_num⟩
  rw [close_length, mkFile_writeAll_file_size, big_input_length_sum, Nat.mod_self]

/-- Claim C2: the logical size counter is 32-bit, so across any write
sequence the recorded logical size — and with it the final truncation
length — is the sum of the lengths reduced modulo 2 ^ 32; whenever that
sum reaches 2 ^ 32 the recorded size differs from the true total. -/
theorem file_size_wraps (cap : Nat) (datas : List (List Char))
    (h : 2 ^ 32 ≤ (datas.map List.length).sum) :
    ((DirectIOWritableFile.mkFile cap).writeAll datas).file_size_ =
      (datas.map List.length).sum % 2 ^ 32 ∧
    ((DirectIOWritableFile.mkFile cap).writeAll datas).file_size_ ≠
      (datas.map List.length).sum ∧
    ∀ page_size : Nat,
      (((DirectIOWritableFile.mkFile cap).writeAll datas).close page_size).length =
        (datas.map List.length).sum % 2 ^ 32 := by
  refine ⟨mkFile_writeAll_file_size cap datas, ?_,
    fun page_size => by rw [close_length, mkFile_writeAll_file_size]⟩
  rw [mkFile_writeAll_file_size]
  have hlt : (datas.map List.length).sum % 2 ^ 32 < 2 ^ 32 :=
    Nat.mod_lt _ (by norm_num)
  omega

/-- Claim C2, witness: one write of 2 ^ 32 bytes sums to at least 2 ^ 32
and leaves a recorded logical size different from the true total. -/
theorem file_size_wraps_witness :
    2 ^ 32 ≤ ([List.replicate (2 ^ 32) 'c'].map List.length).sum ∧
    ((DirectIOWritableFile.mkFile 4096).writeAll
      [List.replicate (2 ^ 32) 'c']).file_size_ ≠
      ([List.replicate (2 ^ 32) 'c'].map List.length).sum := by
  have hle : 2 ^ 32 ≤ ([List.replicate (2 ^ 32) 'c'].map List.length).sum :=
    big_input_length_sum.ge
  exact ⟨hle, (file_size_wraps 4096 [List.replicate (2 ^ 32) 'c'] hle).2.1⟩

/-- Claim C5: a `write` of zero bytes is a no-op returning the accepted
count 0 (success): the whole writer state — logical size, buffer offset,
buffered bytes, on-disk bytes and flush count — is unchanged, so in
particular no flush occurs. -/
theorem write_zero_noop (f : DirectIOWritableFile) (h : f.file_size_ < 2 ^ 32) :
    f.write [] = (f, 0) := by
  have h2 : f.file_size_ % 4294967296 = f.file_size_ := Nat.mod_eq_of_lt h
  simp [DirectIOWritableFile.write, DirectIOWritableFile.writeAux, h2]

/-- Claim C5, witness: the zero-byte write on a fresh writer with a
4096-byte buffer. -/
theorem write_zero_noop_witness :
    (DirectIOWritableFile.mkFile 4096).file_size_ < 2 ^ 32 ∧
    (DirectIOWritableFile.mkFile 4096).write [] =
      (DirectIOWritableFile.mkFile 4096, 0) :=
  ⟨by norm_num [DirectIOWritableFile.mkFile],
   write_zero_noop _ (by norm_num [DirectIOWritableFile.mkFile])⟩

/-- Claim C3: when the listing step succeeded, `getObjects` returns an
outer response whose error is empty regardless of per-key download
failures, and its inner sequence has exactly one record per listed key in
listing order, each record determined solely by its own key's download
result — so one key's failure neither aborts nor alters the downloads of
the remaining keys. -/
theorem getObjects_listing_success (l : ListObjectsResponse)
    (dl : String → GetObjectResponse) (hl : l.error_ = "") :
    (S3Util.getObjects l dl).error_ = "" ∧
    (S3Util.getObjects l dl).body_.length = l.body_.length ∧
    (S3Util.getObjects l dl).body_ = l.body_.map (perKeyRecord dl) := by
  simp [S3Util.getObjects, hl]

/-- Claim C3, witness: listed keys a, b, c where only b's download fails:
the outer error is empty and the inner sequence holds a success record for
a, the failure record for b and a success record for c, in that order. -/
theorem getObjects_listing_success_witness :
    (S3Util.getObjects ⟨["a", "b", "c"], ""⟩ downloadFailingOnB).error_ = "" ∧
    (S3Util.getObjects ⟨["a", "b", "c"], ""⟩ downloadFailingOnB).body_ =
      [⟨true, "a"⟩, ⟨false, "NoSuchKey"⟩, ⟨true, "c"⟩] := by
  have h := getObjects_listing_success ⟨["a", "b", "c"], ""⟩ downloadFailingOnB rfl
  exact ⟨h.1, h.2.2.trans (by decide)⟩

/-- Claim C4, counterexample: one listed key "a" whose download succeeds
(the download response has empty error): the batch's per-key record is
⟨true, "a"⟩, a successful download recorded with the non-empty error
string "a" — so inside a `getObjects` batch a non-empty error does not
signal failure. -/
theorem perKey_success_nonempty_error :
    ((fun _ : String => (⟨true, ""⟩ : GetObjectResponse)) "a").error_ = "" ∧
    (S3Util.getObjects ⟨["a"], ""⟩ (fun _ => ⟨true, ""⟩)).body_ = [⟨true, "a"⟩] ∧
    (⟨true, "a"⟩ : GetObjectResponse).error_ ≠ "" := by decide

/-- Claim C4, amended: the empty-error-signals-success invariant holds for
the outer `getObjects` response — its error equals the listing error, so
it is empty exactly when listing succeeded — but not for the per-key
records inside the batch: a key whose download succeeded is recorded as
⟨true, key⟩ with the key itself (not the empty string) in the error field,
and a key whose download failed is recorded as the failing download
response itself. -/
theorem getObjects_error_convention (l : ListObjectsResponse)
    (dl : String → GetObjectResponse) (key : String) :
    (S3Util.getObjects l dl).error_ = l.error_ ∧
    ((dl key).error_ = "" → perKeyRecord dl key = ⟨true, key⟩) ∧
    ((dl key).error_ ≠ "" → perKeyRecord dl key = dl key) := by
  refine ⟨?_, ?_, ?_⟩
  · by_cases h : l.error_ = "" <;> simp [S3Util.getObjects, h]
  · intro h; simp [perKeyRecord, h]
  · intro h; simp [perKeyRecord, h]

/-- Claim C4, witness: a successful download of key "a" is recorded as
⟨true, "a"⟩ and a failed one as its own failure response. -/
theorem getObjects_error_convention_witness :
    perKeyRecord (fun _ => ⟨true, ""⟩) "a" = ⟨true, "a"⟩ ∧
    perKeyRecord (fun _ => ⟨false, "err"⟩) "a" = ⟨false, "err"⟩ :=
  ⟨(getObjects_error_convention ⟨[], ""⟩ (fun _ => ⟨true, ""⟩) "a").2.1 rfl,
   (getObjects_error_convention ⟨[], ""⟩ (fun _ => ⟨false, "err"⟩) "a").2.2
     (by decide)⟩

/-- Claim C8: `DirectIOFileSink::read` fails for every input: for every
destination buffer and requested length it returns the sentinel -1 (device
not readable), leaves the destination buffer untouched and leaves the
underlying writable file unchanged. -/
theorem read_always_fails (sink : DirectIOFileSink) (s : List Char) (n : Int) :
    (sink.read s n).2.2 = -1 ∧ (sink.read s n).1 = s ∧
    (sink.read s n).2.1 = sink :=
  ⟨rfl, rfl, rfl⟩

/-- Claim C9: `DirectIOFileSink::write` is pure delegation: on every byte
sequence it returns exactly the byte count returned by the underlying
`DirectIOWritableFile::write` on the same input, and its only state effect
is the underlying file's own state change — sink and writable file are
observationally equivalent as byte sinks. -/
theorem sink_write_delegates (sink : DirectIOFileSink) (data : List Char) :
    (sink.write data).2 = (sink.writable_file_.write data).2 ∧
    (sink.write data).1.writable_file_ = (sink.writable_file_.write data).1 :=
  ⟨rfl, rfl⟩

theorem dropThroughSep_append (scheme rest : List Char) :
    ':' ∉ scheme → dropThroughSep (scheme ++ ':' :: '/' :: '/' :: rest) = rest := by
  induction scheme with
  | nil => intro _; simp [dropThroughSep]
  | cons c cs ih =>
    intro h
    rw [List.cons_append]
    simp only [dropThroughSep]
    rw [if_neg]
    · exact ih (fun hm => h (List.mem_cons_of_mem c hm))
    · rintro ⟨hc, -⟩
      apply h
      rw [hc]
      exact List.mem_cons_self ':' cs

theorem splitAtSlash_append (bucket key : List Char) :
    '/' ∉ bucket → splitAtSlash (bucket ++ '/' :: key) = (bucket, key) := by
  induction bucket with
  | nil => intro _; simp [splitAtSlash]
  | cons c cs ih =>
    intro h
    have hc : c ≠ '/' := by
      intro hc
      apply h
      rw [hc]
      exact List.mem_cons_self '/' cs
    rw [List.cons_append]
    simp only [splitAtSlash]
    rw [if_neg hc, ih (fun hm => h (List.mem_cons_of_mem c hm))]

/-- Claim C6: `parseFullS3Path` maps a string of the shape
`scheme://bucket/key...` — the scheme free of ':' and the bucket free of
'/' — to the pair (bucket, key), where the bucket is the first path
segment after the "://" separator and the key is everything after it. -/
theorem parseFullS3Path_correct (scheme bucket key : List Char)
    (hs : ':' ∉ scheme) (hb : '/' ∉ bucket) :
    S3Util.parseFullS3Path
      (String.mk (scheme ++ [':', '/', '/'] ++ bucket ++ ['/'] ++ key)) =
      (String.mk bucket, String.mk key) := by
  have hlist : scheme ++ [':', '/', '/'] ++ bucket ++ ['/'] ++ key =
      scheme ++ ':' :: '/' :: '/' :: (bucket ++ '/' :: key) := by
    simp
  unfold S3Util.parseFullS3Path
  rw [show (String.mk (scheme ++ [':', '/', '/'] ++ bucket ++ ['/'] ++ key)).data =
      scheme ++ [':', '/', '/'] ++ bucket ++ ['/'] ++ key from rfl, hlist,
    dropThroughSep_append _ _ hs]
  simp only [splitAtSlash_append _ _ hb]

/-- Claim C6, witness: the spec's concrete test case. -/
theorem parseFullS3Path_correct_witness :
    S3Util.parseFullS3Path "s3://mybucket/some/key.txt" =
      ("mybucket", "some/key.txt") := by
  have h := parseFullS3Path_correct ['s', '3'] "mybucket".data
    "some/key.txt".data (by decide) (by decide)
  have e1 : String.mk (['s', '3'] ++ [':', '/', '/'] ++ "mybucket".data ++
      ['/'] ++ "some/key.txt".data) = "s3://mybucket/some/key.txt" := by decide
  rw [e1] at h
  exact h

/-- Claim C7: `BuildS3Util` called with an empty bucket returns the null
facade (`none`), never a partially initialized one, for every endpoint
mapping, client configuration, rate limit and pair of timeouts; being a
total function, the embedded factory neither throws nor crashes. -/
theorem buildS3Util_empty_bucket (forRegion : String → String)
    (client_config : ClientConfiguration) (read_ratelimit_mb : Nat)
    (connect_timeout_ms request_timeout_ms : Nat) :
    S3Util.BuildS3Util forRegion client_config read_ratelimit_mb ""
      connect_timeout_ms request_timeout_ms = none := rfl

/-- Claim C10, counterexample: the `S3Util` constructor body performs no
process-wide SDK lifecycle call at all — its SDK call sequence is empty,
so in particular it does not perform the SDK global initialization the
claim attributes to it; the header instead obliges direct callers to run
`Aws::InitAPI` before constructing. -/
theorem constructor_performs_no_init :
    S3Util.constructorSDKCalls = [] ∧
    SDKCall.initAPI ∉ S3Util.constructorSDKCalls := by decide

/-- Claim C10, amended: the SDK global initialization is performed by the
`BuildS3Util` factory — the constructor itself makes no SDK lifecycle
call — and the destructor performs the matching global teardown, so a
facade built through the factory with a non-empty bucket binds exactly one
init/teardown pair to its lifetime. -/
theorem sdk_lifecycle_via_factory (bucket : String) (h : bucket ≠ "") :
    S3Util.buildSDKCalls bucket ++ S3Util.constructorSDKCalls ++
      S3Util.destructorSDKCalls = [SDKCall.initAPI, SDKCall.shutdownAPI] ∧
    S3Util.constructorSDKCalls = [] := by
  simp [S3Util.buildSDKCalls, S3Util.constructorSDKCalls,
    S3Util.destructorSDKCalls, h]

/-- Claim C10, witness: the lifecycle trace for a facade built on a
non-empty bucket. -/
theorem sdk_lifecycle_via_factory_witness :
    S3Util.buildSDKCalls "pinterest" ++ S3Util.constructorSDKCalls ++
      S3Util.destructorSDKCalls = [SDKCall.initAPI, SDKCall.shutdownAPI] ∧
    S3Util.constructorSDKCalls = [] :=
  sdk_lifecycle_via_factory "pinterest" (by decide)

end common
